import Mathlib

/-!
# GameTS collision core — shallow embedding

A shallow embedding of the 2D collision-resolution core of the GameTS
engine: the `BoxSolver` four-phase contact solver
(`src/engine/Collision/Solver/BoxSolver.ts`) and the `BodyComponent`
bookkeeping operations (`add`, `collide`, `addMtv`/`applyMtv`,
`captureOldTransform`/`hasChanged`, the `inertia` getter).

JavaScript number arithmetic is modelled over `ℚ` (the claims under
scrutiny are exact algebraic statements); vectors are pairs of rationals
with the componentwise operations of `Algebra.ts`'s `Vector`.  Mutation of
the body store is modelled by explicit state passing over a map from body
ids to body records, and event emission by returning the list of emitted
events.  Where reference identity of JavaScript objects matters
(`hasChanged`'s `oldScale !== scale`), the aliasing relation is carried as
an explicit boolean field.
-/

/-- 2D vector, as in `Algebra.ts`'s `Vector`, over exact rationals. -/
structure Vec2 where
  x : ℚ
  y : ℚ
deriving DecidableEq

/-- `Vector.prototype.add`: componentwise sum. -/
def Vec2.add (v w : Vec2) : Vec2 := ⟨v.x + w.x, v.y + w.y⟩

/-- `Vector.prototype.scale`: multiply both components by a scalar. -/
def Vec2.scale (v : Vec2) (k : ℚ) : Vec2 := ⟨v.x * k, v.y * k⟩

/-- `Vector.prototype.negate`: componentwise negation. -/
def Vec2.negate (v : Vec2) : Vec2 := ⟨-v.x, -v.y⟩

/-- `Vector.prototype.dot`: the scalar product. -/
def Vec2.dot (v w : Vec2) : ℚ := v.x * w.x + v.y * w.y

/-- The zero vector (`Vector.Zero`). -/
def Vec2.zero : Vec2 := ⟨0, 0⟩

/-- A vector perpendicular to `v` (rotation by 90°), used to speak about
the tangential component of a velocity relative to a contact normal. -/
def Vec2.perp (v : Vec2) : Vec2 := ⟨-v.y, v.x⟩

/-- `CollisionType.ts`: per-body collision policy. -/
inductive CollisionType where
  | Active
  | Passive
  | Fixed
  | PreventCollision
deriving DecidableEq

/-- The four sides, as in `Side.ts`. -/
inductive Side where
  | Top
  | Bottom
  | Left
  | Right
deriving DecidableEq

/-- Modelled from the spec: `Side.fromDirection` (its source file is not
part of the excerpt) — "classify the separating side (Top/Bottom/Left/Right)
from the MTV direction": the dominant axis of the direction vector picks the
side. -/
def Side.fromDirection (v : Vec2) : Side :=
  if |v.x| ≥ |v.y| then (if v.x ≤ 0 then Side.Left else Side.Right)
  else (if v.y ≤ 0 then Side.Top else Side.Bottom)

/-- Modelled from the spec: `Side.getOpposite` — the mirrored side. -/
def Side.getOpposite : Side → Side
  | Side.Top => Side.Bottom
  | Side.Bottom => Side.Top
  | Side.Left => Side.Right
  | Side.Right => Side.Left

/-- The physical state of a body as consumed by the solver: position,
velocity and collision type (`colliderX.owner` in `BoxSolver.ts`). -/
structure BodyPhys where
  pos : Vec2
  vel : Vec2
  ctype : CollisionType
deriving DecidableEq

/-- A collider as the solver sees it: an identity (its event channel) and
its owning body's id. -/
structure SCollider where
  cid : ℕ
  owner : ℕ
deriving DecidableEq

/-- `CollisionContact.ts`: the two colliders, the minimum translation
vector and the contact normal. -/
structure CollisionContact where
  colliderA : SCollider
  colliderB : SCollider
  mtv : Vec2
  normal : Vec2
deriving DecidableEq

/-- The mutable store of bodies, indexed by body id. -/
structure World where
  bodies : ℕ → BodyPhys

/-- Write body `i` of the store. -/
def World.setBody (w : World) (i : ℕ) (b : BodyPhys) : World :=
  ⟨fun j => if j = i then b else w.bodies j⟩

/-- One iteration of the `solvePosition` loop in `BoxSolver.ts`
(lines 31–43): halve the MTV when both owners are `Active`, then add it to
colliderA's owner's position (`pos.y += mtv.y; pos.x += mtv.x`). -/
def solvePositionStep (w : World) (c : CollisionContact) : World :=
  let mtv := c.mtv
  let bA := w.bodies c.colliderA.owner
  let bB := w.bodies c.colliderB.owner
  let mtv :=
    if bA.ctype = CollisionType.Active ∧ bB.ctype = CollisionType.Active then
      mtv.scale (1/2)
    else mtv
  w.setBody c.colliderA.owner { bA with pos := bA.pos.add mtv }

/-- `BoxSolver.solvePosition`: the loop over the contact batch. -/
def solvePosition : List CollisionContact → World → World
  | [], w => w
  | c :: cs, w => solvePosition cs (solvePositionStep w c)

/-- One iteration of the `solveVelocity` loop in `BoxSolver.ts`
(lines 47–63): cancel the velocity component opposite the contact normal on
colliderA's owner, then — reading the store after that first write — the
component opposite the negated normal on colliderB's owner. -/
def solveVelocityStep (w : World) (c : CollisionContact) : World :=
  let normal := c.normal
  let opposite := normal.negate
  let bA := w.bodies c.colliderA.owner
  let w1 :=
    if normal.dot bA.vel < 0 then
      w.setBody c.colliderA.owner
        { bA with vel := bA.vel.add (normal.scale (normal.dot bA.vel.negate)) }
    else w
  let bB := w1.bodies c.colliderB.owner
  if opposite.dot bB.vel < 0 then
    w1.setBody c.colliderB.owner
      { bB with vel := bB.vel.add (opposite.scale (opposite.dot bB.vel.negate)) }
  else w1

/-- `BoxSolver.solveVelocity`: the loop over the contact batch. -/
def solveVelocity : List CollisionContact → World → World
  | [], w => w
  | c :: cs, w => solveVelocity cs (solveVelocityStep w c)

/-- The kind of a collision event published by the solver. -/
inductive EventKind where
  | precollision
  | postcollision
deriving DecidableEq

/-- The payload of a `PreCollisionEvent`/`PostCollisionEvent` constructor
call in `Events.ts`: (target collider, other collider, side, intersection
vector). -/
structure CollisionEvtPayload where
  target : SCollider
  other : SCollider
  side : Side
  intersection : Vec2
deriving DecidableEq

/-- One `events.emit` call: the collider channel the event is published on
and the event. -/
structure Emission where
  channel : ℕ
  kind : EventKind
  payload : CollisionEvtPayload
deriving DecidableEq

/-- `BoxSolver.preSolve` (lines 9–17): for each contact, classify the side
from `contact.mtv`, negate the MTV, and publish a `precollision` event on
both colliders' channels; the body store is passed through untouched (the
loop body reads contact fields and emits, nothing else). -/
def preSolve : List CollisionContact → World → World × List Emission
  | [], w => (w, [])
  | c :: cs, w =>
    let side := Side.fromDirection c.mtv
    let mtv := c.mtv.negate
    let e1 : Emission :=
      ⟨c.colliderA.cid, EventKind.precollision, ⟨c.colliderA, c.colliderB, side, mtv⟩⟩
    let e2 : Emission :=
      ⟨c.colliderB.cid, EventKind.precollision,
        ⟨c.colliderB, c.colliderA, Side.getOpposite side, mtv.negate⟩⟩
    let rest := preSolve cs w
    (rest.1, e1 :: e2 :: rest.2)

/-- `BoxSolver.postSolve` (lines 19–27): for each contact, negate the MTV
and publish a `postcollision` event on both colliders' channels, the side
recomputed from the (negated, resp. twice-negated) MTV; the body store is
passed through untouched. -/
def postSolve : List CollisionContact → World → World × List Emission
  | [], w => (w, [])
  | c :: cs, w =>
    let mtv := c.mtv.negate
    let e1 : Emission :=
      ⟨c.colliderA.cid, EventKind.postcollision,
        ⟨c.colliderA, c.colliderB, Side.fromDirection mtv, mtv⟩⟩
    let e2 : Emission :=
      ⟨c.colliderB.cid, EventKind.postcollision,
        ⟨c.colliderB, c.colliderA, Side.fromDirection mtv.negate, mtv.negate⟩⟩
    let rest := postSolve cs w
    (rest.1, e1 :: e2 :: rest.2)

/-- The slice of `BodyComponent` state used by `addMtv`/`applyMtv`:
the position and the per-tick accumulated MTV buffer `_totalMtv`. -/
structure MtvBody where
  pos : Vec2
  totalMtv : Vec2
deriving DecidableEq

/-- `BodyComponent.addMtv`: `this._totalMtv.addEqual(mtv)`. -/
def addMtv (b : MtvBody) (mtv : Vec2) : MtvBody :=
  { b with totalMtv := b.totalMtv.add mtv }

/-- `BodyComponent.applyMtv`: `this.pos.addEqual(this._totalMtv);
this._totalMtv.setTo(0, 0)`. -/
def applyMtv (b : MtvBody) : MtvBody :=
  { pos := b.pos.add b.totalMtv, totalMtv := Vec2.zero }

/-- A collider's ownership state: `owningId` (absent until first attach)
and the back reference `body` (as the id of the referenced body). -/
structure ColliderOwn where
  owningId : Option ℕ
  bodyRef : Option ℕ
deriving DecidableEq

/-- The slice of `BodyComponent` state used by `add`: the body's `id` and
its `colliders` list (as collider ids, in insertion order). -/
structure BodyOwn where
  id : ℕ
  colliderIds : List ℕ
deriving DecidableEq

/-- JavaScript truthiness of the `owningId` field (a number or
`undefined`): `undefined` and `0` are falsy, every other id is truthy. -/
def jsTruthy : Option ℕ → Bool
  | none => false
  | some n => decide (n ≠ 0)

/-- `BodyComponent.add` (part_002 lines 508–518): if `!collider.owningId`,
set `collider.owningId = this.id`, `collider.body = this` and push the
collider onto `this.colliders`; otherwise do nothing (the `else` branch is
an empty no-op).  The guard is the JavaScript falsiness of `owningId`. -/
def bodyAdd (b : BodyOwn) (cid : ℕ) (c : ColliderOwn) : BodyOwn × ColliderOwn :=
  if jsTruthy c.owningId then (b, c)
  else ({ b with colliderIds := b.colliderIds ++ [cid] },
        { owningId := some b.id, bodyRef := some b.id })

/-- `BodyComponent.collide` (part_002 lines 524–537): nested loops over
self's colliders (outer) and the other body's colliders (inner), pushing
each non-`none` narrow-phase result.  The narrow-phase test
`colliderA.collide(colliderB)` lives outside the excerpt and is a
parameter `f`.  `acc` is the `collisions` accumulator array. -/
def bodyCollideAux {κ γ : Type} (f : κ → κ → Option γ)
    (acc : List γ) : List κ → List κ → List γ
  | [], _ => acc
  | a :: as, bs =>
    bodyCollideAux f
      (acc ++ bs.foldl (fun l b => match f a b with
        | some contact => l ++ [contact]
        | none => l) []) as bs

/-- `BodyComponent.collide`: start from the empty `collisions` array. -/
def bodyCollide {κ γ : Type} (f : κ → κ → Option γ) (as bs : List κ) : List γ :=
  bodyCollideAux f [] as bs

/-- The shape variants, as a closed enumeration (Box, Circle, Polygon,
Edge). -/
inductive ShapeKind where
  | box
  | circle
  | polygon
  | edge
deriving DecidableEq

/-- A collider as the `inertia` getter sees it: the wrapped shape. -/
structure ShapedCollider where
  shape : ShapeKind
deriving DecidableEq

/-- The slice of `BodyComponent` state used by the `inertia` getter. -/
structure InertiaBody where
  mass : ℚ
  colliders : List ShapedCollider

/-- The `inertia` getter (part_002 lines 466–468):
`this.colliders[0].shape.getInertia(this.mass)`.  The unguarded `[0]`
index is embedded as `Option` indexing; `getInertia` (shape specific, not
in the excerpt) is a parameter `g`. -/
def inertia (g : ShapeKind → ℚ → ℚ) (b : InertiaBody) : Option ℚ :=
  (b.colliders.get? 0).map fun c => g c.shape b.mass

/-- The transform slice of `BodyComponent` used by `captureOldTransform`
and `hasChanged`.  JavaScript compares `oldScale !== scale` by object
reference; `scaleAliased` records whether the two fields hold the same
`Vector` object (a freshly constructed body holds two distinct instances,
both initialized from `Vector.One`). -/
structure TBody where
  pos : Vec2
  vel : Vec2
  acc : Vec2
  rotation : ℚ
  scale : Vec2
  oldPos : Vec2
  oldVel : Vec2
  oldAcc : Vec2
  oldRotation : ℚ
  oldScale : Vec2
  scaleAliased : Bool
deriving DecidableEq

/-- `BodyComponent.captureOldTransform` (part_002 lines 698–705): copy the
current pos, vel, acc, scale and rotation values into the old fields via
`setTo` (in-place value copy, so the aliasing relation between the `scale`
and `oldScale` objects is untouched). -/
def captureOldTransform (b : TBody) : TBody :=
  { b with
    oldVel := b.vel
    oldPos := b.pos
    oldAcc := b.acc
    oldScale := b.scale
    oldRotation := b.rotation }

/-- `BodyComponent.hasChanged` (part_002 lines 707–711):
`!this.oldPos.equals(this.pos) || this.oldRotation !== this.rotation ||
this.oldScale !== this.scale`.  `Vector.equals` is modelled from the spec
as exact value equality; `oldScale !== this.scale` is strict (reference)
inequality of the two `Vector` objects, i.e. the negation of the aliasing
flag. -/
def hasChanged (b : TBody) : Bool :=
  !decide (b.oldPos = b.pos) || decide (b.oldRotation ≠ b.rotation) || !b.scaleAliased

/-- Double negation of a vector is the identity. -/
theorem Vec2.negate_negate (v : Vec2) : v.negate.negate = v := by
  cases v
  simp [Vec2.negate]

/-- The zero vector is right neutral for vector addition. -/
theorem Vec2.add_zero (v : Vec2) : v.add Vec2.zero = v := by
  cases v
  simp [Vec2.add, Vec2.zero]

/-- C1: processing a contact batch handles each contact in order by one
position step; the step adds the MTV — halved exactly when both owning
bodies are `Active`, unscaled for every other combination of collision
types — to the position of the body owning colliderA, and leaves the body
owning colliderB (and every other body) completely unchanged. -/
theorem C1_solvePosition_only_moves_A (w : World) (c : CollisionContact)
    (hne : c.colliderB.owner ≠ c.colliderA.owner) :
    (∀ cs, solvePosition (c :: cs) w = solvePosition cs (solvePositionStep w c)) ∧
    ((solvePositionStep w c).bodies c.colliderA.owner).pos =
      (w.bodies c.colliderA.owner).pos.add
        (if (w.bodies c.colliderA.owner).ctype = CollisionType.Active ∧
            (w.bodies c.colliderB.owner).ctype = CollisionType.Active then
          c.mtv.scale (1/2)
        else c.mtv) ∧
    (solvePositionStep w c).bodies c.colliderB.owner = w.bodies c.colliderB.owner ∧
    (∀ j, j ≠ c.colliderA.owner → (solvePositionStep w c).bodies j = w.bodies j) := by
  refine ⟨fun cs => rfl, ?_, ?_, ?_⟩
  · simp [solvePositionStep, World.setBody]
  · simp [solvePositionStep, World.setBody, hne]
  · intro j hj
    simp [solvePositionStep, World.setBody, hj]

/-- Witness for C1 at a concrete input: two Active bodies, MTV `(-10, 0)`;
body 0 receives the halved MTV, body 1 keeps its record. -/
theorem C1_witness :
    ((solvePositionStep
        ⟨fun j => if j = 0 then ⟨⟨200, 200⟩, Vec2.zero, CollisionType.Active⟩
          else ⟨⟨240, 200⟩, Vec2.zero, CollisionType.Active⟩⟩
        ⟨⟨10, 0⟩, ⟨11, 1⟩, ⟨-10, 0⟩, ⟨-1, 0⟩⟩).bodies 0).pos = ⟨195, 200⟩ ∧
    (solvePositionStep
        ⟨fun j => if j = 0 then ⟨⟨200, 200⟩, Vec2.zero, CollisionType.Active⟩
          else ⟨⟨240, 200⟩, Vec2.zero, CollisionType.Active⟩⟩
        ⟨⟨10, 0⟩, ⟨11, 1⟩, ⟨-10, 0⟩, ⟨-1, 0⟩⟩).bodies 1 =
      ⟨⟨240, 200⟩, Vec2.zero, CollisionType.Active⟩ := by
  have h := C1_solvePosition_only_moves_A
    ⟨fun j => if j = 0 then ⟨⟨200, 200⟩, Vec2.zero, CollisionType.Active⟩
      else ⟨⟨240, 200⟩, Vec2.zero, CollisionType.Active⟩⟩
    ⟨⟨10, 0⟩, ⟨11, 1⟩, ⟨-10, 0⟩, ⟨-1, 0⟩⟩ (by decide)
  refine ⟨?_, ?_⟩
  · rw [h.2.1]
    norm_num [Vec2.add, Vec2.scale]
  · have hb := h.2.2.1
    simpa using hb

/-- Cancelling the normal component: adding `n * (n ⬝ (-v))` to `v` makes
the dot product with a unit `n` exactly zero. -/
theorem Vec2.dot_cancel (n v : Vec2) (hunit : n.dot n = 1) :
    n.dot (v.add (n.scale (n.dot v.negate))) = 0 := by
  simp only [Vec2.dot, Vec2.add, Vec2.scale, Vec2.negate] at *
  linear_combination (-(n.x * v.x) - n.y * v.y) * hunit

/-- Cancelling the normal component leaves the tangential component (the
dot product with the perpendicular of `n`) unchanged. -/
theorem Vec2.perp_dot_cancel (n v : Vec2) :
    n.perp.dot (v.add (n.scale (n.dot v.negate))) = n.perp.dot v := by
  simp only [Vec2.dot, Vec2.add, Vec2.scale, Vec2.negate, Vec2.perp]
  ring

/-- C2: one velocity step on a contact between two distinct bodies with a
unit contact normal: when the velocity of the body owning colliderA has a
negative dot product with the normal, the step adds
`normal * dot(normal, -velA)` to it — driving its normal component to
exactly zero while preserving the tangential component — and otherwise
leaves it unchanged; the body owning colliderB gets the mirrored treatment
with the negated normal.  The batch processes contacts one step at a
time. -/
theorem C2_solveVelocity_cancels_normal_component (w : World) (c : CollisionContact)
    (hne : c.colliderB.owner ≠ c.colliderA.owner)
    (hunit : c.normal.dot c.normal = 1) :
    (∀ cs, solveVelocity (c :: cs) w = solveVelocity cs (solveVelocityStep w c)) ∧
    (c.normal.dot (w.bodies c.colliderA.owner).vel < 0 →
      ((solveVelocityStep w c).bodies c.colliderA.owner).vel =
        (w.bodies c.colliderA.owner).vel.add
          (c.normal.scale (c.normal.dot (w.bodies c.colliderA.owner).vel.negate)) ∧
      c.normal.dot ((solveVelocityStep w c).bodies c.colliderA.owner).vel = 0 ∧
      c.normal.perp.dot ((solveVelocityStep w c).bodies c.colliderA.owner).vel =
        c.normal.perp.dot (w.bodies c.colliderA.owner).vel) ∧
    (¬ c.normal.dot (w.bodies c.colliderA.owner).vel < 0 →
      ((solveVelocityStep w c).bodies c.colliderA.owner).vel =
        (w.bodies c.colliderA.owner).vel) ∧
    (c.normal.negate.dot (w.bodies c.colliderB.owner).vel < 0 →
      ((solveVelocityStep w c).bodies c.colliderB.owner).vel =
        (w.bodies c.colliderB.owner).vel.add
          (c.normal.negate.scale
            (c.normal.negate.dot (w.bodies c.colliderB.owner).vel.negate)) ∧
      c.normal.negate.dot ((solveVelocityStep w c).bodies c.colliderB.owner).vel = 0 ∧
      c.normal.negate.perp.dot ((solveVelocityStep w c).bodies c.colliderB.owner).vel =
        c.normal.negate.perp.dot (w.bodies c.colliderB.owner).vel) ∧
    (¬ c.normal.negate.dot (w.bodies c.colliderB.owner).vel < 0 →
      ((solveVelocityStep w c).bodies c.colliderB.owner).vel =
        (w.bodies c.colliderB.owner).vel) := by
  have hne2 : c.colliderA.owner ≠ c.colliderB.owner := Ne.symm hne
  refine ⟨fun cs => rfl, ?_, ?_, ?_, ?_⟩
  · intro hA
    have hvelA : ((solveVelocityStep w c).bodies c.colliderA.owner).vel =
        (w.bodies c.colliderA.owner).vel.add
          (c.normal.scale (c.normal.dot (w.bodies c.colliderA.owner).vel.negate)) := by
      by_cases hB : c.normal.negate.dot (w.bodies c.colliderB.owner).vel < 0 <;>
        simp [solveVelocityStep, World.setBody, hA, hB, hne, hne2]
    refine ⟨hvelA, ?_, ?_⟩
    · rw [hvelA]
      exact Vec2.dot_cancel c.normal _ hunit
    · rw [hvelA]
      exact Vec2.perp_dot_cancel c.normal _
  · intro hA
    by_cases hB : c.normal.negate.dot (w.bodies c.colliderB.owner).vel < 0 <;>
      simp [solveVelocityStep, World.setBody, hA, hB, hne, hne2]
  · intro hB
    have hunitB : c.normal.negate.dot c.normal.negate = 1 := by
      simp only [Vec2.dot, Vec2.negate] at hunit ⊢
      linear_combination hunit
    have hvelB : ((solveVelocityStep w c).bodies c.colliderB.owner).vel =
        (w.bodies c.colliderB.owner).vel.add
          (c.normal.negate.scale
            (c.normal.negate.dot (w.bodies c.colliderB.owner).vel.negate)) := by
      by_cases hA : c.normal.dot (w.bodies c.colliderA.owner).vel < 0 <;>
        simp [solveVelocityStep, World.setBody, hA, hB, hne, hne2]
    refine ⟨hvelB, ?_, ?_⟩
    · rw [hvelB]
      exact Vec2.dot_cancel c.normal.negate _ hunitB
    · rw [hvelB]
      exact Vec2.perp_dot_cancel c.normal.negate _
  · intro hB
    by_cases hA : c.normal.dot (w.bodies c.colliderA.owner).vel < 0 <;>
      simp [solveVelocityStep, World.setBody, hA, hB, hne, hne2]

/-- Witness for C2 at a concrete input: unit normal `(-1, 0)`, body 0
moving with velocity `(3, 1)` into the surface and body 1 with `(-2, 5)`;
both normal components are cancelled exactly, both tangential components
survive. -/
theorem C2_witness :
    ((solveVelocityStep
        ⟨fun j => if j = 0 then ⟨Vec2.zero, ⟨3, 1⟩, CollisionType.Active⟩
          else ⟨Vec2.zero, ⟨-2, 5⟩, CollisionType.Active⟩⟩
        ⟨⟨10, 0⟩, ⟨11, 1⟩, ⟨-10, 0⟩, ⟨-1, 0⟩⟩).bodies 0).vel = ⟨0, 1⟩ ∧
    ((solveVelocityStep
        ⟨fun j => if j = 0 then ⟨Vec2.zero, ⟨3, 1⟩, CollisionType.Active⟩
          else ⟨Vec2.zero, ⟨-2, 5⟩, CollisionType.Active⟩⟩
        ⟨⟨10, 0⟩, ⟨11, 1⟩, ⟨-10, 0⟩, ⟨-1, 0⟩⟩).bodies 1).vel = ⟨0, 5⟩ := by
  have h := C2_solveVelocity_cancels_normal_component
    ⟨fun j => if j = 0 then ⟨Vec2.zero, ⟨3, 1⟩, CollisionType.Active⟩
      else ⟨Vec2.zero, ⟨-2, 5⟩, CollisionType.Active⟩⟩
    ⟨⟨10, 0⟩, ⟨11, 1⟩, ⟨-10, 0⟩, ⟨-1, 0⟩⟩ (by decide) (by norm_num [Vec2.dot])
  obtain ⟨-, h2, -, h4, -⟩ := h
  constructor
  · have e := (h2 (by norm_num [Vec2.dot])).1
    norm_num [Vec2.add, Vec2.scale, Vec2.dot, Vec2.negate] at e
    exact e
  · have e := (h4 (by norm_num [Vec2.dot, Vec2.negate])).1
    norm_num [Vec2.add, Vec2.scale, Vec2.dot, Vec2.negate] at e
    exact e

/-- C3 counterexample: two Active bodies (50×50 boxes overlapping by 10px
along X, MTV `(-10, 0)`); after `solvePosition` on the single contact,
body 0 has moved by the halved MTV `(-5, 0)` but body 1 has not moved at
all — in particular body 1 did not move 5px in either direction along X,
refuting "each of the two bodies moves by 5px". -/
theorem C3_counterexample :
    ((solvePosition
        [⟨⟨10, 0⟩, ⟨11, 1⟩, ⟨-10, 0⟩, ⟨-1, 0⟩⟩]
        ⟨fun j => if j = 0 then ⟨⟨200, 200⟩, Vec2.zero, CollisionType.Active⟩
          else ⟨⟨240, 200⟩, Vec2.zero, CollisionType.Active⟩⟩).bodies 0).pos = ⟨195, 200⟩ ∧
    ((solvePosition
        [⟨⟨10, 0⟩, ⟨11, 1⟩, ⟨-10, 0⟩, ⟨-1, 0⟩⟩]
        ⟨fun j => if j = 0 then ⟨⟨200, 200⟩, Vec2.zero, CollisionType.Active⟩
          else ⟨⟨240, 200⟩, Vec2.zero, CollisionType.Active⟩⟩).bodies 1).pos = ⟨240, 200⟩ ∧
    ¬ (((solvePosition
        [⟨⟨10, 0⟩, ⟨11, 1⟩, ⟨-10, 0⟩, ⟨-1, 0⟩⟩]
        ⟨fun j => if j = 0 then ⟨⟨200, 200⟩, Vec2.zero, CollisionType.Active⟩
          else ⟨⟨240, 200⟩, Vec2.zero, CollisionType.Active⟩⟩).bodies 1).pos = ⟨235, 200⟩ ∨
       ((solvePosition
        [⟨⟨10, 0⟩, ⟨11, 1⟩, ⟨-10, 0⟩, ⟨-1, 0⟩⟩]
        ⟨fun j => if j = 0 then ⟨⟨200, 200⟩, Vec2.zero, CollisionType.Active⟩
          else ⟨⟨240, 200⟩, Vec2.zero, CollisionType.Active⟩⟩).bodies 1).pos = ⟨245, 200⟩) := by
  refine ⟨?_, ?_, ?_⟩ <;>
    norm_num [solvePosition, solvePositionStep, World.setBody, Vec2.add, Vec2.scale]

/-- C3 (amended): in the both-Active 10px-overlap scenario, `solvePosition`
moves the body owning colliderA by half the MTV (5px along X) and leaves
the body owning colliderB exactly where it was; neither body moves the
full 10px. -/
theorem C3_amended_half_mtv_to_A_only :
    ((solvePosition
        [⟨⟨10, 0⟩, ⟨11, 1⟩, ⟨-10, 0⟩, ⟨-1, 0⟩⟩]
        ⟨fun j => if j = 0 then ⟨⟨200, 200⟩, Vec2.zero, CollisionType.Active⟩
          else ⟨⟨240, 200⟩, Vec2.zero, CollisionType.Active⟩⟩).bodies 0).pos =
      Vec2.add ⟨200, 200⟩ (Vec2.scale ⟨-10, 0⟩ (1/2)) ∧
    (solvePosition
        [⟨⟨10, 0⟩, ⟨11, 1⟩, ⟨-10, 0⟩, ⟨-1, 0⟩⟩]
        ⟨fun j => if j = 0 then ⟨⟨200, 200⟩, Vec2.zero, CollisionType.Active⟩
          else ⟨⟨240, 200⟩, Vec2.zero, CollisionType.Active⟩⟩).bodies 1 =
      ⟨⟨240, 200⟩, Vec2.zero, CollisionType.Active⟩ := by
  constructor <;>
    norm_num [solvePosition, solvePositionStep, World.setBody, Vec2.add, Vec2.scale]

/-- Folding `addMtv` over a list of vectors only grows the buffer: the
position is untouched and the buffer accumulates the running vector sum. -/
theorem foldl_addMtv (vs : List Vec2) (b : MtvBody) :
    vs.foldl addMtv b = ⟨b.pos, vs.foldl Vec2.add b.totalMtv⟩ := by
  induction vs generalizing b with
  | nil => rfl
  | cons v vs ih => simp [List.foldl, addMtv, ih]

/-- C4: starting from a body whose accumulated-MTV buffer is zero, any
finite sequence of `addMtv` calls followed by one `applyMtv` moves the
position by exactly the vector sum of the added MTVs and resets the buffer
to zero; a second `applyMtv` with no intervening `addMtv` changes
nothing. -/
theorem C4_applyMtv_sums_and_resets (b : MtvBody) (vs : List Vec2)
    (h : b.totalMtv = Vec2.zero) :
    (applyMtv (vs.foldl addMtv b)).pos = b.pos.add (vs.foldl Vec2.add Vec2.zero) ∧
    (applyMtv (vs.foldl addMtv b)).totalMtv = Vec2.zero ∧
    applyMtv (applyMtv (vs.foldl addMtv b)) = applyMtv (vs.foldl addMtv b) := by
  rw [foldl_addMtv, h]
  refine ⟨rfl, rfl, ?_⟩
  simp [applyMtv, Vec2.add_zero]

/-- Witness for C4 at a concrete input: buffer initially zero, MTVs
`(3, 4)` then `(5, 6)`; `applyMtv` moves the position `(1, 2)` to
`(9, 12)` and zeroes the buffer. -/
theorem C4_witness :
    (applyMtv (List.foldl addMtv ⟨⟨1, 2⟩, Vec2.zero⟩ [⟨3, 4⟩, ⟨5, 6⟩])).pos = ⟨9, 12⟩ ∧
    (applyMtv (List.foldl addMtv ⟨⟨1, 2⟩, Vec2.zero⟩ [⟨3, 4⟩, ⟨5, 6⟩])).totalMtv =
      Vec2.zero ∧
    applyMtv (applyMtv (List.foldl addMtv ⟨⟨1, 2⟩, Vec2.zero⟩ [⟨3, 4⟩, ⟨5, 6⟩])) =
      applyMtv (List.foldl addMtv ⟨⟨1, 2⟩, Vec2.zero⟩ [⟨3, 4⟩, ⟨5, 6⟩]) := by
  have h := C4_applyMtv_sums_and_resets ⟨⟨1, 2⟩, Vec2.zero⟩ [⟨3, 4⟩, ⟨5, 6⟩] rfl
  refine ⟨?_, h.2.1, h.2.2⟩
  rw [h.1]
  norm_num [List.foldl, Vec2.add, Vec2.zero]

/-- C5: the guard of `BodyComponent.add` is JavaScript falsiness of
`owningId`, and body ids start at 0 — so a collider first attached to the
body with id 0 carries `owningId = 0`, which is falsy, and a second `add`
on a body with id 1 silently reassigns it: its `owningId` and `body`
reference change to the second body and the collider is pushed onto the
second body's list as well, contradicting "first add wins, never a silent
reassignment". -/
theorem C5_zero_id_body_loses_its_collider :
    (bodyAdd ⟨0, []⟩ 7 ⟨none, none⟩).2.owningId = some 0 ∧
    (bodyAdd ⟨0, []⟩ 7 ⟨none, none⟩).1.colliderIds = [7] ∧
    (bodyAdd ⟨1, []⟩ 7 (bodyAdd ⟨0, []⟩ 7 ⟨none, none⟩).2).2.owningId = some 1 ∧
    (bodyAdd ⟨1, []⟩ 7 (bodyAdd ⟨0, []⟩ 7 ⟨none, none⟩).2).2.bodyRef = some 1 ∧
    (bodyAdd ⟨1, []⟩ 7 (bodyAdd ⟨0, []⟩ 7 ⟨none, none⟩).2).1.colliderIds = [7] := by
  decide

/-- The `add` guard does reject a second attach when the first owner has a
nonzero id: with owner ids starting anywhere above 0, `owningId` is truthy
and the second `add` is a no-op on both the body and the collider. -/
theorem bodyAdd_rejects_when_owned_nonzero (b b2 : BodyOwn) (cid cid2 : ℕ)
    (hb : b.id ≠ 0) :
    (bodyAdd b2 cid2 (bodyAdd b cid ⟨none, none⟩).2).2 =
      (bodyAdd b cid ⟨none, none⟩).2 ∧
    (bodyAdd b2 cid2 (bodyAdd b cid ⟨none, none⟩).2).1 = b2 := by
  constructor <;> simp [bodyAdd, jsTruthy, hb]

/-- Witness for the nonzero-id rejection: a collider owned by body 1 is
not stolen by body 2. -/
theorem bodyAdd_rejects_witness :
    (bodyAdd ⟨2, []⟩ 9 (bodyAdd ⟨1, []⟩ 9 ⟨none, none⟩).2).2 =
      (bodyAdd ⟨1, []⟩ 9 ⟨none, none⟩).2 ∧
    (bodyAdd ⟨2, []⟩ 9 (bodyAdd ⟨1, []⟩ 9 ⟨none, none⟩).2).1 = ⟨2, []⟩ :=
  bodyAdd_rejects_when_owned_nonzero ⟨1, []⟩ ⟨2, []⟩ 9 9 (by decide)

/-- C6: a freshly constructed body holds `scale` and `oldScale` as two
distinct `Vector` objects, so the `oldScale !== scale` reference
comparison in `hasChanged` is true no matter the values: after
`captureOldTransform` with no intervening mutation — every captured value
equal to the current one — `hasChanged` still returns `true`, refuting
the round-trip "returns false" and the value-equality "iff" alike. -/
theorem C6_hasChanged_true_without_mutation :
    hasChanged (captureOldTransform
      ⟨⟨3, 4⟩, Vec2.zero, Vec2.zero, 0, ⟨1, 1⟩,
        Vec2.zero, Vec2.zero, Vec2.zero, 0, ⟨1, 1⟩, false⟩) = true ∧
    (captureOldTransform
      ⟨⟨3, 4⟩, Vec2.zero, Vec2.zero, 0, ⟨1, 1⟩,
        Vec2.zero, Vec2.zero, Vec2.zero, 0, ⟨1, 1⟩, false⟩).oldPos =
      (captureOldTransform
      ⟨⟨3, 4⟩, Vec2.zero, Vec2.zero, 0, ⟨1, 1⟩,
        Vec2.zero, Vec2.zero, Vec2.zero, 0, ⟨1, 1⟩, false⟩).pos ∧
    (captureOldTransform
      ⟨⟨3, 4⟩, Vec2.zero, Vec2.zero, 0, ⟨1, 1⟩,
        Vec2.zero, Vec2.zero, Vec2.zero, 0, ⟨1, 1⟩, false⟩).oldRotation =
      (captureOldTransform
      ⟨⟨3, 4⟩, Vec2.zero, Vec2.zero, 0, ⟨1, 1⟩,
        Vec2.zero, Vec2.zero, Vec2.zero, 0, ⟨1, 1⟩, false⟩).rotation ∧
    (captureOldTransform
      ⟨⟨3, 4⟩, Vec2.zero, Vec2.zero, 0, ⟨1, 1⟩,
        Vec2.zero, Vec2.zero, Vec2.zero, 0, ⟨1, 1⟩, false⟩).oldScale =
      (captureOldTransform
      ⟨⟨3, 4⟩, Vec2.zero, Vec2.zero, 0, ⟨1, 1⟩,
        Vec2.zero, Vec2.zero, Vec2.zero, 0, ⟨1, 1⟩, false⟩).scale := by
  refine ⟨?_, rfl, rfl, rfl⟩
  simp [hasChanged, captureOldTransform]

/-- When `scale` and `oldScale` do alias one object (the reference
comparison is false), `hasChanged` behaves as the spec describes: false
right after `captureOldTransform`, true once the position value
changes. -/
theorem hasChanged_value_semantics_when_aliased (b : TBody) (p : Vec2)
    (halias : b.scaleAliased = true) (hp : b.pos ≠ p) :
    hasChanged (captureOldTransform b) = false ∧
    hasChanged { captureOldTransform b with pos := p } = true := by
  constructor <;> simp [hasChanged, captureOldTransform, halias, hp]

/-- Witness for the aliased-scale behaviour at a concrete input. -/
theorem hasChanged_value_semantics_witness :
    hasChanged (captureOldTransform
      ⟨⟨3, 4⟩, Vec2.zero, Vec2.zero, 0, ⟨1, 1⟩,
        Vec2.zero, Vec2.zero, Vec2.zero, 0, ⟨1, 1⟩, true⟩) = false ∧
    hasChanged { captureOldTransform
      ⟨⟨3, 4⟩, Vec2.zero, Vec2.zero, 0, ⟨1, 1⟩,
        Vec2.zero, Vec2.zero, Vec2.zero, 0, ⟨1, 1⟩, true⟩ with pos := ⟨5, 4⟩ } = true :=
  hasChanged_value_semantics_when_aliased
    ⟨⟨3, 4⟩, Vec2.zero, Vec2.zero, 0, ⟨1, 1⟩,
      Vec2.zero, Vec2.zero, Vec2.zero, 0, ⟨1, 1⟩, true⟩ ⟨5, 4⟩ rfl (by norm_num)

/-- C7: `preSolve` emits, per contact and in batch order, exactly one
`precollision` event on each of the two colliders' channels: colliderA's
channel receives (colliderA, colliderB, the side classified from the MTV
direction, the negated MTV) and colliderB's channel the mirrored
(colliderB, colliderA, opposite side, the negated MTV negated back — i.e.
the original MTV); no contact is filtered on the bodies' collision
types. -/
theorem C7_preSolve_emits_mirrored_pair (w : World) (cs : List CollisionContact) :
    (preSolve cs w).2 = cs.flatMap (fun c =>
      [⟨c.colliderA.cid, EventKind.precollision,
         ⟨c.colliderA, c.colliderB, Side.fromDirection c.mtv, c.mtv.negate⟩⟩,
       ⟨c.colliderB.cid, EventKind.precollision,
         ⟨c.colliderB, c.colliderA,
           Side.getOpposite (Side.fromDirection c.mtv), c.mtv⟩⟩]) := by
  induction cs with
  | nil => rfl
  | cons c cs ih => simp [preSolve, ih, Vec2.negate_negate]

/-- The inner loop of `BodyComponent.collide` appends, in order, every
non-`none` result of testing `a` against the other body's colliders. -/
theorem bodyCollide_inner {κ γ : Type} (f : κ → κ → Option γ) (a : κ)
    (bs : List κ) (init : List γ) :
    bs.foldl (fun l b => match f a b with
      | some contact => l ++ [contact]
      | none => l) init = init ++ bs.filterMap (f a) := by
  induction bs generalizing init with
  | nil => simp
  | cons b bs ih =>
    cases h : f a b <;> simp [List.foldl, List.filterMap_cons, h, ih]

/-- The accumulator form of `BodyComponent.collide` prepends the
accumulator to the nested-loop collection. -/
theorem bodyCollideAux_eq {κ γ : Type} (f : κ → κ → Option γ) (as bs : List κ)
    (acc : List γ) :
    bodyCollideAux f acc as bs = acc ++ as.flatMap (fun a => bs.filterMap (f a)) := by
  induction as generalizing acc with
  | nil => simp [bodyCollideAux]
  | cons a as ih => simp [bodyCollideAux, ih, bodyCollide_inner]

/-- C8: `Body.collide(other)` returns exactly the non-`none` results of
the narrow-phase test over all collider pairs, in nested-loop order —
self's colliders as the outer loop, the other body's as the inner loop.
Repeated calls with the same collider lists and narrow-phase function are
literally the same value, so the order is stable. -/
theorem C8_bodyCollide_nested_loop_order {κ γ : Type} (f : κ → κ → Option γ)
    (as bs : List κ) :
    bodyCollide f as bs = as.flatMap (fun a => bs.filterMap (f a)) := by
  simpa using bodyCollideAux_eq f as bs []

/-- C9: `preSolve` and `postSolve` pass the body store through unchanged —
every body field (position, velocity, collision type) is the same after
the phase as before, whatever the batch — and on the empty batch all four
phases are no-ops that emit nothing. -/
theorem C9_observational_phases_and_empty_batch (w : World)
    (cs : List CollisionContact) :
    (preSolve cs w).1 = w ∧
    (postSolve cs w).1 = w ∧
    preSolve [] w = (w, []) ∧
    postSolve [] w = (w, []) ∧
    solvePosition [] w = w ∧
    solveVelocity [] w = w := by
  refine ⟨?_, ?_, rfl, rfl, rfl, rfl⟩
  · induction cs with
    | nil => rfl
    | cons c cs ih => simpa [preSolve] using ih
  · induction cs with
    | nil => rfl
    | cons c cs ih => simpa [postSolve] using ih

/-- C10: the `inertia` getter indexes `colliders[0]` unguarded: whenever
the collider list is non-empty it returns the first collider's
shape-specific inertia at the body's mass, ignoring every other collider,
and on an empty collider list the embedded `Option` indexing takes its
error branch (`none` — the JavaScript access faults). -/
theorem C10_inertia_first_collider_only (g : ShapeKind → ℚ → ℚ) (b : InertiaBody) :
    (∀ c rest, b.colliders = c :: rest → inertia g b = some (g c.shape b.mass)) ∧
    (b.colliders = [] → inertia g b = none) := by
  constructor
  · intro c rest h
    simp [inertia, h]
  · intro h
    simp [inertia, h]

/-- Witness for C10 at concrete inputs: with two colliders the getter uses
only the first one; with none it returns the error value. -/
theorem C10_witness :
    inertia (fun _ m => m * 2) ⟨3, [⟨ShapeKind.box⟩, ⟨ShapeKind.circle⟩]⟩ = some 6 ∧
    inertia (fun _ m => m * 2) ⟨3, []⟩ = none := by
  have h1 := (C10_inertia_first_collider_only (fun _ m => m * 2)
    ⟨3, [⟨ShapeKind.box⟩, ⟨ShapeKind.circle⟩]⟩).1 ⟨ShapeKind.box⟩ [⟨ShapeKind.circle⟩] rfl
  have h2 := (C10_inertia_first_collider_only (fun _ m => m * 2) ⟨3, []⟩).2 rfl
  refine ⟨?_, h2⟩
  rw [h1]
  norm_num
